import Mathlib

/-!
Verification of the current-profile coordinator
(`src/vs/workbench/services/userDataProfile/common/userDataProfileService.ts`).

The data model and operations below are a shallow embedding of the
TypeScript source.  Machinery the service imports from elsewhere in the
repository (`Emitter` from `vs/base/common/event`, `Promises.settled` from
`vs/base/common/async`) is not part of the given source tree; those pieces
are modelled from the specification and are marked as such in their doc
comments.

Modelling conventions:
* A JavaScript string is a Lean `String`; the optional `shortName` field is
  an `Option String`, and JavaScript truthiness of an optional string
  (undefined or empty both falsy) is `truthyString`.
* A promise that has settled is its final outcome, `Except ε Unit`.
* A joiner task may read the coordinator's current profile while it runs;
  it is modelled as a function of the profile that is current when the
  task starts.
* A change listener is invoked synchronously with the event; during its
  invocation it may read the current profile and may call the event's
  `join` capability any number of times, which appends tasks to the
  per-switch joiner list.  Its observable behaviour is therefore a
  function from (observed current profile, event) to the list of tasks it
  registers.
-/

/-- The shape of `IUserDataProfile` as used by the service: a stable `id`,
a display `name`, an optional user-assigned `shortName`, and the
`isDefault` / `isTransient` flags. -/
structure UserDataProfile where
  id : String
  name : String
  shortName : Option String
  isDefault : Bool
  isTransient : Bool
  deriving DecidableEq, Repr

/-- JavaScript truthiness of an optional string: `undefined` and the empty
string are falsy, every other string is truthy. -/
def truthyString : Option String → Bool
  | none => false
  | some s => !s.isEmpty

/-- JavaScript `String.prototype.charAt(i)`: the one-character string at
index `i`, or the empty string when `i` is out of range (including
negative `i`). -/
def jsCharAt (s : String) (i : Int) : String :=
  if i < 0 then ""
  else
    match s.data.get? i.toNat with
    | some c => String.singleton c
    | none => ""

/-- JavaScript `String.prototype.substring(a, b)` for `a ≤ b`: the
characters from index `a` (inclusive) to `b` (exclusive), clamped to the
string's length. -/
def jsSubstring (s : String) (a b : Nat) : String :=
  String.mk ((s.data.take b).drop a)

/-- JavaScript `String.prototype.toUpperCase`, restricted to per-character
upper-casing. -/
def jsToUpperCase (s : String) : String :=
  String.mk (s.data.map Char.toUpper)

/-- The id of the icon registered at module load:
`registerIcon('defaultProfile-icon', ...)`. -/
def defaultUserDataProfileIcon_id : String := "defaultProfile-icon"

/-- `UserDataProfileService.getShortName`, translated clause by clause from
the source:

```
if (profile.isDefault) { return `$(${defaultUserDataProfileIcon.id})`; }
if (profile.shortName) { return profile.shortName; }
if (profile.isTransient) { return `T${profile.name.charAt(profile.name.length - 1)}`; }
return profile.name.substring(0, 2).toUpperCase();
```
-/
def getShortName (profile : UserDataProfile) : String :=
  if profile.isDefault then
    "$(" ++ defaultUserDataProfileIcon_id ++ ")"
  else if truthyString profile.shortName then
    profile.shortName.getD ""
  else if profile.isTransient then
    "T" ++ jsCharAt profile.name ((profile.name.data.length : Int) - 1)
  else
    jsToUpperCase (jsSubstring profile.name 0 2)

/-- A joiner task registered through the event's `join` capability, seen at
the moment it settles: given the profile that is current when the task
starts, its final outcome (success or a failure of type `ε`). -/
def JoinerTask (ε : Type) := UserDataProfile → Except ε Unit

/-- The `DidChangeUserDataProfileEvent` payload handed to change listeners
(the `join` capability is modelled by the listener's returned task list,
not stored in the event value). -/
structure DidChangeUserDataProfileEvent where
  preserveData : Bool
  previous : UserDataProfile
  profile : UserDataProfile
  deriving DecidableEq, Repr

/-- The observable behaviour of a registered change listener: invoked with
the current profile it can read during dispatch and the event payload, it
returns the joiner tasks it registers via `join` (in the order of its
`join` calls). -/
def ChangeListener (ε : Type) :=
  UserDataProfile → DidChangeUserDataProfileEvent → List (JoinerTask ε)

/-- The mutable state of a `UserDataProfileService` instance:
`_currentProfile` plus the registration-ordered registry of change
listeners subscribed to `onDidChangeCurrentProfile`. -/
structure ServiceState (ε : Type) where
  currentProfile : UserDataProfile
  changeListeners : List (ChangeListener ε)

/-- A record of one change-listener invocation: the listener's position in
the registry, the current profile it observes during its synchronous
invocation, and the event payload it receives. -/
structure Invocation where
  idx : Nat
  observedCurrent : UserDataProfile
  event : DidChangeUserDataProfileEvent
  deriving DecidableEq, Repr

/-- Modelled from the spec: the `Emitter.fire` used by
`_onDidChangeCurrentProfile` lives in `vs/base/common/event`, which is not
under the given source tree.  Per the spec, firing synchronously invokes
every registered change listener, in registration order, passing each the
same event; each listener's `join` calls append its tasks to the shared
per-switch joiner list.  Returns the invocation records and the collected
joiner list, both in order. -/
def fireChangeEvent {ε : Type} :
    List (ChangeListener ε) → UserDataProfile → DidChangeUserDataProfileEvent →
    Nat → List Invocation × List (JoinerTask ε)
  | [], _, _, _ => ([], [])
  | L :: rest, cur, ev, i =>
    let tasks := L cur ev
    let later := fireChangeEvent rest cur ev (i + 1)
    ({ idx := i, observedCurrent := cur, event := ev } :: later.1, tasks ++ later.2)

/-- The failures among a list of settled outcomes, in order. -/
def settledFailures {ε : Type} (outcomes : List (Except ε Unit)) : List ε :=
  outcomes.filterMap fun o =>
    match o with
    | Except.error e => some e
    | Except.ok _ => none

/-- Modelled from the spec: `Promises.settled` lives in
`vs/base/common/async`, which is not under the given source tree.  Per the
spec, the switch awaits every joiner task until it reaches a terminal
state (no short-circuit on the first failure) and its result fails,
carrying the aggregate of the failures, exactly when at least one task
failed. -/
def settled {ε : Type} (outcomes : List (Except ε Unit)) : Except (List ε) Unit :=
  if (settledFailures outcomes).isEmpty then Except.ok ()
  else Except.error (settledFailures outcomes)

/-- Everything observable about one call to `updateCurrentProfile`: the
state after the call, the asynchronous result the caller awaits, the
change-listener invocations performed (in order), and the settled
outcomes of all joiner tasks (in registration order). -/
structure SwitchOutcome (ε : Type) where
  state : ServiceState ε
  result : Except (List ε) Unit
  invocations : List Invocation
  joinerOutcomes : List (Except ε Unit)

/-- `UserDataProfileService.updateCurrentProfile`, translated from the
source:

```
async updateCurrentProfile(userDataProfile, preserveData) {
  if (this._currentProfile.id === userDataProfile.id) { return; }
  const previous = this._currentProfile;
  this._currentProfile = userDataProfile;
  const joiners = [];
  this._onDidChangeCurrentProfile.fire({ preserveData, previous,
    profile: userDataProfile, join(promise) { joiners.push(promise); } });
  await Promises.settled(joiners);
}
```

The commit `this._currentProfile = userDataProfile` happens before the
fire, so listeners observe the new profile, and the joiner tasks start
after the fire, so they too run with the new profile current. -/
def updateCurrentProfile {ε : Type} (s : ServiceState ε)
    (userDataProfile : UserDataProfile) (preserveData : Bool) : SwitchOutcome ε :=
  if s.currentProfile.id = userDataProfile.id then
    { state := s, result := Except.ok (), invocations := [], joinerOutcomes := [] }
  else
    let previous := s.currentProfile
    let s1 : ServiceState ε := { s with currentProfile := userDataProfile }
    let ev : DidChangeUserDataProfileEvent :=
      { preserveData := preserveData, previous := previous, profile := userDataProfile }
    let fired := fireChangeEvent s.changeListeners s1.currentProfile ev 0
    let outcomes := fired.2.map fun t => t s1.currentProfile
    { state := s1
      result := settled outcomes
      invocations := fired.1
      joinerOutcomes := outcomes }

/-- The catalog change batch delivered by
`userDataProfilesService.onDidChangeProfiles`; the handler only reads
`updated`. -/
structure DidChangeProfilesEvent where
  added : List UserDataProfile
  updated : List UserDataProfile
  removed : List UserDataProfile
  deriving Repr

/-- Everything observable about one run of the constructor-registered
catalog handler: the state afterwards, how many times the
`_onDidUpdateCurrentProfile` emitter fired, and how many times the
`_onDidChangeCurrentProfile` emitter fired (always zero on this path). -/
structure ReconcileOutcome (ε : Type) where
  state : ServiceState ε
  updateListenerFires : Nat
  changeListenerFires : Nat

/-- The handler registered in the constructor, translated from the source:

```
this._register(userDataProfilesService.onDidChangeProfiles(e => {
  const updatedCurrentProfile = e.updated.find(p => this._currentProfile.id === p.id);
  if (updatedCurrentProfile) {
    this._currentProfile = updatedCurrentProfile;
    this._onDidUpdateCurrentProfile.fire();
  }
}));
```

`Array.prototype.find` returns the first element matching the predicate in
array order, which is `List.find?`. -/
def onDidChangeProfilesHandler {ε : Type} (s : ServiceState ε)
    (e : DidChangeProfilesEvent) : ReconcileOutcome ε :=
  match e.updated.find? (fun p => s.currentProfile.id == p.id) with
  | some updatedCurrentProfile =>
    { state := { s with currentProfile := updatedCurrentProfile }
      updateListenerFires := 1
      changeListenerFires := 0 }
  | none =>
    { state := s, updateListenerFires := 0, changeListenerFires := 0 }

/-! Concrete fixtures used to instantiate the theorems below. -/

def profDefault : UserDataProfile :=
  { id := "default-id", name := "Default", shortName := none,
    isDefault := true, isTransient := false }

def profAlpha : UserDataProfile :=
  { id := "p1", name := "alpha", shortName := none,
    isDefault := false, isTransient := false }

def profAlphaV2 : UserDataProfile :=
  { id := "p1", name := "alpha renamed", shortName := none,
    isDefault := false, isTransient := false }

def profBeta : UserDataProfile :=
  { id := "p2", name := "beta", shortName := none,
    isDefault := false, isTransient := false }

def profAB : UserDataProfile :=
  { id := "p3", name := "Zed", shortName := some "AB",
    isDefault := false, isTransient := false }

def profX : UserDataProfile :=
  { id := "p4", name := "x", shortName := none,
    isDefault := false, isTransient := false }

def profWork1 : UserDataProfile :=
  { id := "p5", name := "Work1", shortName := none,
    isDefault := false, isTransient := true }

def profTransientNoName : UserDataProfile :=
  { id := "p6", name := "", shortName := some "",
    isDefault := false, isTransient := true }

def okTask : JoinerTask String := fun _ => Except.ok ()

def failingTask : JoinerTask String := fun _ => Except.error "listener task failed"

def listenerJoinsTwo : ChangeListener String := fun _ _ => [failingTask, okTask]

def listenerJoinsOne : ChangeListener String := fun _ _ => [okTask]

def sampleState : ServiceState String :=
  { currentProfile := profAlpha, changeListeners := [listenerJoinsTwo, listenerJoinsOne] }

def plainState : ServiceState String :=
  { currentProfile := profAlpha, changeListeners := [] }

def identicalUpdateBatch : DidChangeProfilesEvent :=
  { added := [], updated := [profAlpha], removed := [] }

def renameUpdateBatch : DidChangeProfilesEvent :=
  { added := [], updated := [profBeta, profAlphaV2, profX], removed := [] }

def unrelatedUpdateBatch : DidChangeProfilesEvent :=
  { added := [], updated := [profBeta], removed := [] }

/-! Helper lemmas. -/

theorem jsCharAt_last {s : String} {c : Char} (h : s.data.getLast? = some c) :
    jsCharAt s ((s.data.length : Int) - 1) = String.singleton c := by
  have hne : s.data ≠ [] := by
    intro hnil
    rw [hnil] at h
    simp at h
  have hlen : 1 ≤ s.data.length := List.length_pos.mpr hne
  have hint : ¬ ((s.data.length : Int) - 1 < 0) := by omega
  have htn : ((s.data.length : Int) - 1).toNat = s.data.length - 1 := by omega
  rw [List.getLast?_eq_get?] at h
  simp only [jsCharAt, hint, if_false, htn, h]

theorem settled_eq_ok_iff {ε : Type} (outcomes : List (Except ε Unit)) :
    settled outcomes = Except.ok () ↔ settledFailures outcomes = [] := by
  by_cases h : (settledFailures outcomes).isEmpty
  · simp only [settled, h, if_true]
    simpa using List.isEmpty_iff.mp h
  · have h2 : settledFailures outcomes ≠ [] := by
      intro he
      exact h (by simp [he])
    simp only [settled, h, if_false]
    simp [h2]

theorem settled_eq_error_of_failures {ε : Type} (outcomes : List (Except ε Unit))
    (h : settledFailures outcomes ≠ []) :
    settled outcomes = Except.error (settledFailures outcomes) := by
  have hfalse : (settledFailures outcomes).isEmpty = false := by
    cases he : (settledFailures outcomes).isEmpty
    · rfl
    · exact absurd (List.isEmpty_iff.mp he) h
  simp only [settled, hfalse, Bool.false_eq_true, if_false]

/-- Claim C5: `getShortName` evaluates exactly the precedence
default-token, then non-empty `shortName` verbatim, then transient token,
then the first two characters of `name` upper-cased, with fewer than two
characters returned as-is (upper-cased, no padding, no error). -/
theorem getShortName_precedence :
    (∀ p : UserDataProfile, p.isDefault = true →
        getShortName p = "$(" ++ defaultUserDataProfileIcon_id ++ ")")
    ∧ (∀ (p : UserDataProfile) (str : String), p.isDefault = false →
        p.shortName = some str → str ≠ "" → getShortName p = str)
    ∧ (∀ p : UserDataProfile, p.isDefault = false →
        truthyString p.shortName = false → p.isTransient = true →
        getShortName p = "T" ++ jsCharAt p.name ((p.name.data.length : Int) - 1))
    ∧ (∀ p : UserDataProfile, p.isDefault = false →
        truthyString p.shortName = false → p.isTransient = false →
        getShortName p = jsToUpperCase (String.mk (p.name.data.take 2)))
    ∧ (∀ p : UserDataProfile, p.isDefault = false →
        truthyString p.shortName = false → p.isTransient = false →
        p.name.data.length < 2 → getShortName p = jsToUpperCase p.name) := by
  refine ⟨?_, ?_, ?_, ?_, ?_⟩
  · intro p h
    simp [getShortName, h]
  · intro p str h hs hne
    have hie : str.isEmpty = false := by
      cases he : str.isEmpty
      · rfl
      · exact absurd ((String.isEmpty_iff str).mp he) hne
    rw [getShortName]
    simp [h, hs, truthyString, hie]
  · intro p h hs htr
    simp [getShortName, h, hs, htr]
  · intro p h hs htr
    simp [getShortName, h, hs, htr, jsSubstring]
  · intro p h hs htr hlen
    have htake : p.name.data.take 2 = p.name.data := List.take_of_length_le (by omega)
    simp [getShortName, h, hs, htr, jsSubstring, htake]

/-- Claim C5 witness: the precedence theorem instantiated at the spec's
concrete cases. -/
theorem getShortName_precedence_witness :
    getShortName profDefault = "$(defaultProfile-icon)"
    ∧ getShortName profAB = "AB"
    ∧ getShortName profAlpha = "AL"
    ∧ getShortName profX = "X" := by
  refine ⟨?_, ?_, ?_, ?_⟩
  · exact getShortName_precedence.1 profDefault rfl
  · exact getShortName_precedence.2.1 profAB "AB" rfl rfl (by decide)
  · have h := getShortName_precedence.2.2.2.1 profAlpha rfl rfl rfl
    rw [h]
    decide
  · have h := getShortName_precedence.2.2.2.2 profX rfl rfl rfl (by decide)
    rw [h]
    decide

/-- Claim C6: for a non-default profile with falsy `shortName` and
`isTransient`, the short name is the fixed prefix `T` followed by the last
character of `name` (not the first), the computation is total, and on an
empty name it still returns a string (just `"T"`). -/
theorem getShortName_transient_uses_last_char (p : UserDataProfile)
    (h1 : p.isDefault = false) (h2 : truthyString p.shortName = false)
    (h3 : p.isTransient = true) :
    (∀ c : Char, p.name.data.getLast? = some c →
        getShortName p = "T" ++ String.singleton c)
    ∧ (p.name = "" → getShortName p = "T")
    ∧ (p.name ≠ "" → (getShortName p).length = 2) := by
  have hbase : getShortName p =
      "T" ++ jsCharAt p.name ((p.name.data.length : Int) - 1) := by
    simp [getShortName, h1, h2, h3]
  refine ⟨?_, ?_, ?_⟩
  · intro c hc
    rw [hbase, jsCharAt_last hc]
  · intro hnil
    rw [hbase, hnil]
    decide
  · intro hne
    have hdata : p.name.data ≠ [] := by
      intro hd
      exact hne (String.ext (by rw [hd]))
    obtain ⟨c, hc⟩ := Option.isSome_iff_exists.mp (List.getLast?_isSome.mpr hdata)
    rw [hbase, jsCharAt_last hc, String.length_append]
    rfl

/-- Claim C6 witness: the transient branch at `{name := "Work1"}` yields
`"T1"` (prefix `T` plus last character) and at an empty name yields `"T"`. -/
theorem getShortName_transient_uses_last_char_witness :
    getShortName profWork1 = "T" ++ String.singleton '1'
    ∧ getShortName profTransientNoName = "T"
    ∧ (getShortName profWork1).length = 2 := by
  refine ⟨?_, ?_, ?_⟩
  · exact (getShortName_transient_uses_last_char profWork1 rfl rfl rfl).1 '1' (by decide)
  · exact (getShortName_transient_uses_last_char profTransientNoName rfl rfl rfl).2.1 rfl
  · exact (getShortName_transient_uses_last_char profWork1 rfl rfl rfl).2.2 (by decide)

/-- Claim C9: for a non-default, falsy-short-name, transient profile with
an empty name, `getShortName` returns the one-character string `"T"`, so
the transient token is not always two characters long. -/
theorem getShortName_transient_empty_name (p : UserDataProfile)
    (h1 : p.isDefault = false) (h2 : truthyString p.shortName = false)
    (h3 : p.isTransient = true) (h4 : p.name = "") :
    getShortName p = "T" ∧ (getShortName p).length = 1 := by
  have hbase : getShortName p =
      "T" ++ jsCharAt p.name ((p.name.data.length : Int) - 1) := by
    simp [getShortName, h1, h2, h3]
  rw [hbase, h4]
  exact ⟨by decide, by decide⟩

/-- Claim C9 witness: the empty-name transient profile evaluates to `"T"`,
a one-character token. -/
theorem getShortName_transient_empty_name_witness :
    getShortName profTransientNoName = "T"
    ∧ (getShortName profTransientNoName).length = 1 :=
  getShortName_transient_empty_name profTransientNoName rfl rfl rfl rfl

theorem fireChangeEvent_observedCurrent {ε : Type} (ls : List (ChangeListener ε))
    (cur : UserDataProfile) (ev : DidChangeUserDataProfileEvent) (i : Nat) :
    ∀ inv ∈ (fireChangeEvent ls cur ev i).1, inv.observedCurrent = cur := by
  induction ls generalizing i with
  | nil =>
    intro inv hinv
    simp [fireChangeEvent] at hinv
  | cons L rest ih =>
    intro inv hinv
    simp only [fireChangeEvent, List.mem_cons] at hinv
    rcases hinv with hh | hh
    · rw [hh]
    · exact ih (i + 1) inv hh

theorem fireChangeEvent_event_eq {ε : Type} (ls : List (ChangeListener ε))
    (cur : UserDataProfile) (ev : DidChangeUserDataProfileEvent) (i : Nat) :
    ∀ inv ∈ (fireChangeEvent ls cur ev i).1, inv.event = ev := by
  induction ls generalizing i with
  | nil =>
    intro inv hinv
    simp [fireChangeEvent] at hinv
  | cons L rest ih =>
    intro inv hinv
    simp only [fireChangeEvent, List.mem_cons] at hinv
    rcases hinv with hh | hh
    · rw [hh]
    · exact ih (i + 1) inv hh

theorem fireChangeEvent_idx_map {ε : Type} (ls : List (ChangeListener ε))
    (cur : UserDataProfile) (ev : DidChangeUserDataProfileEvent) (i : Nat) :
    (fireChangeEvent ls cur ev i).1.map Invocation.idx = List.range' i ls.length := by
  induction ls generalizing i with
  | nil => simp [fireChangeEvent]
  | cons L rest ih =>
    simp [fireChangeEvent, List.range'_succ, ih]

theorem find?_append_first_match {α : Type} (p : α → Bool) (pre : List α) (q : α)
    (post : List α) (hpre : ∀ x ∈ pre, p x = false) (hq : p q = true) :
    List.find? p (pre ++ q :: post) = some q := by
  induction pre with
  | nil => simpa using List.find?_cons_of_pos post hq
  | cons a l ih =>
    have ha : ¬ p a = true := by simp [hpre a (List.mem_cons_self a l)]
    rw [List.cons_append, List.find?_cons_of_neg _ ha]
    exact ih fun x hx => hpre x (List.mem_cons_of_mem a hx)

/-- Claim C2: switching to the already-current profile (equal ids) is a
silent no-op for any `preserveData`: immediate success, no change event
fired, no listener invocation, no joiner task, and the state unchanged by
identity. -/
theorem updateCurrentProfile_noop_on_same_id {ε : Type} (s : ServiceState ε)
    (target : UserDataProfile) (preserveData : Bool)
    (h : target.id = s.currentProfile.id) :
    updateCurrentProfile s target preserveData =
      { state := s, result := Except.ok (), invocations := [], joinerOutcomes := [] } := by
  rw [updateCurrentProfile, if_pos h.symm]

/-- Claim C2 witness: switching `sampleState` to its own current profile
is the silent no-op. -/
theorem updateCurrentProfile_noop_on_same_id_witness :
    profAlpha.id = sampleState.currentProfile.id
    ∧ updateCurrentProfile sampleState profAlpha false =
        { state := sampleState, result := Except.ok (),
          invocations := [], joinerOutcomes := [] } :=
  ⟨rfl, updateCurrentProfile_noop_on_same_id sampleState profAlpha false rfl⟩

/-- Claim C1: a non-no-op switch settles every registered joiner task (one
settled outcome per registered task), its asynchronous result succeeds
exactly when no joiner failed, a failing result carries the aggregate of
all joiner failures, and the current profile equals the target regardless
(the commit is never rolled back). -/
theorem updateCurrentProfile_settles_all_and_aggregates {ε : Type}
    (s : ServiceState ε) (target : UserDataProfile) (preserveData : Bool)
    (h : ¬ s.currentProfile.id = target.id) :
    (updateCurrentProfile s target preserveData).state.currentProfile = target
    ∧ (updateCurrentProfile s target preserveData).joinerOutcomes.length =
        (fireChangeEvent s.changeListeners target
          { preserveData := preserveData, previous := s.currentProfile,
            profile := target } 0).2.length
    ∧ ((updateCurrentProfile s target preserveData).result = Except.ok () ↔
        settledFailures (updateCurrentProfile s target preserveData).joinerOutcomes = [])
    ∧ (settledFailures (updateCurrentProfile s target preserveData).joinerOutcomes ≠ [] →
        (updateCurrentProfile s target preserveData).result =
          Except.error
            (settledFailures
              (updateCurrentProfile s target preserveData).joinerOutcomes)) := by
  refine ⟨?_, ?_, ?_, ?_⟩
  · simp [updateCurrentProfile, if_neg h]
  · simp only [updateCurrentProfile, if_neg h]
    exact List.length_map _ _
  · simp only [updateCurrentProfile, if_neg h]
    exact settled_eq_ok_iff _
  · simp only [updateCurrentProfile, if_neg h]
    exact settled_eq_error_of_failures _

/-- Claim C1 witness: `sampleState` has a listener joining a failing task
and an ok task plus a listener joining an ok task; switching to `profBeta`
settles all three and aggregates the failure, with the profile committed. -/
theorem updateCurrentProfile_settles_all_and_aggregates_witness :
    (¬ sampleState.currentProfile.id = profBeta.id)
    ∧ ((updateCurrentProfile sampleState profBeta true).state.currentProfile = profBeta
      ∧ (updateCurrentProfile sampleState profBeta true).joinerOutcomes.length =
          (fireChangeEvent sampleState.changeListeners profBeta
            { preserveData := true, previous := sampleState.currentProfile,
              profile := profBeta } 0).2.length
      ∧ ((updateCurrentProfile sampleState profBeta true).result = Except.ok () ↔
          settledFailures (updateCurrentProfile sampleState profBeta true).joinerOutcomes = [])
      ∧ (settledFailures (updateCurrentProfile sampleState profBeta true).joinerOutcomes ≠ [] →
          (updateCurrentProfile sampleState profBeta true).result =
            Except.error
              (settledFailures
                (updateCurrentProfile sampleState profBeta true).joinerOutcomes))) :=
  ⟨by decide,
   updateCurrentProfile_settles_all_and_aggregates sampleState profBeta true (by decide)⟩

/-- Claim C3: on a non-no-op switch the new reference is committed before
listener dispatch and before any joiner task starts: every change-listener
invocation observes the target as current, every joiner task runs with the
target current, and the post-state's current profile is the target. -/
theorem updateCurrentProfile_commits_before_dispatch {ε : Type}
    (s : ServiceState ε) (target : UserDataProfile) (preserveData : Bool)
    (h : ¬ s.currentProfile.id = target.id) :
    (∀ inv ∈ (updateCurrentProfile s target preserveData).invocations,
        inv.observedCurrent = target)
    ∧ (updateCurrentProfile s target preserveData).joinerOutcomes =
        ((fireChangeEvent s.changeListeners target
            { preserveData := preserveData, previous := s.currentProfile,
              profile := target } 0).2).map (fun t => t target)
    ∧ (updateCurrentProfile s target preserveData).state.currentProfile = target := by
  refine ⟨?_, ?_, ?_⟩
  · simp only [updateCurrentProfile, if_neg h]
    exact fireChangeEvent_observedCurrent s.changeListeners target _ 0
  · simp [updateCurrentProfile, if_neg h]
  · simp [updateCurrentProfile, if_neg h]

/-- Claim C3 witness: the commit-before-dispatch theorem instantiated at
`sampleState` switching to `profBeta`. -/
theorem updateCurrentProfile_commits_before_dispatch_witness :
    (¬ sampleState.currentProfile.id = profBeta.id)
    ∧ ((∀ inv ∈ (updateCurrentProfile sampleState profBeta false).invocations,
          inv.observedCurrent = profBeta)
      ∧ (updateCurrentProfile sampleState profBeta false).joinerOutcomes =
          ((fireChangeEvent sampleState.changeListeners profBeta
              { preserveData := false, previous := sampleState.currentProfile,
                profile := profBeta } 0).2).map (fun t => t profBeta)
      ∧ (updateCurrentProfile sampleState profBeta false).state.currentProfile = profBeta) :=
  ⟨by decide,
   updateCurrentProfile_commits_before_dispatch sampleState profBeta false (by decide)⟩

/-- Claim C7: a non-no-op switch invokes each registered change listener
exactly once, in registration order (invocation indices are exactly
`0, 1, ..., n-1` in order), and every invocation receives the same event
`{previous, profile := target, preserveData}`. -/
theorem updateCurrentProfile_invokes_listeners_in_order {ε : Type}
    (s : ServiceState ε) (target : UserDataProfile) (preserveData : Bool)
    (h : ¬ s.currentProfile.id = target.id) :
    (updateCurrentProfile s target preserveData).invocations.map Invocation.idx =
      List.range s.changeListeners.length
    ∧ (∀ inv ∈ (updateCurrentProfile s target preserveData).invocations,
        inv.event = { preserveData := preserveData, previous := s.currentProfile,
                      profile := target }) := by
  constructor
  · simp only [updateCurrentProfile, if_neg h]
    rw [List.range_eq_range']
    exact fireChangeEvent_idx_map s.changeListeners target _ 0
  · simp only [updateCurrentProfile, if_neg h]
    exact fireChangeEvent_event_eq s.changeListeners target _ 0

/-- Claim C7 witness: with two listeners registered in order, the switch
invokes indices `[0, 1]` in order, each with the same event. -/
theorem updateCurrentProfile_invokes_listeners_in_order_witness :
    (¬ sampleState.currentProfile.id = profBeta.id)
    ∧ ((updateCurrentProfile sampleState profBeta true).invocations.map Invocation.idx =
        List.range sampleState.changeListeners.length
      ∧ (∀ inv ∈ (updateCurrentProfile sampleState profBeta true).invocations,
          inv.event = { preserveData := true, previous := sampleState.currentProfile,
                        profile := profBeta })) :=
  ⟨by decide,
   updateCurrentProfile_invokes_listeners_in_order sampleState profBeta true (by decide)⟩

/-- Claim C8: the coordinator never interprets `preserveData`: two runs
from the same state and target with different flags produce identical
post-states, and the flag reaches every listener unmodified inside the
event. -/
theorem updateCurrentProfile_preserveData_not_interpreted {ε : Type}
    (s : ServiceState ε) (target : UserDataProfile) (b1 b2 : Bool) :
    (updateCurrentProfile s target b1).state = (updateCurrentProfile s target b2).state
    ∧ (∀ inv ∈ (updateCurrentProfile s target b1).invocations,
        inv.event.preserveData = b1) := by
  constructor
  · by_cases hid : s.currentProfile.id = target.id <;>
      simp [updateCurrentProfile, hid]
  · by_cases hid : s.currentProfile.id = target.id
    · simp [updateCurrentProfile, hid]
    · simp only [updateCurrentProfile, if_neg hid]
      intro inv hinv
      rw [fireChangeEvent_event_eq s.changeListeners target _ 0 inv hinv]

/-- Claim C4: on a catalog change batch, the handler replaces the current
profile with the first updated entry (in catalog order) whose id equals
the current id and fires exactly one update notification and zero change
notifications; if no updated entry matches, it changes nothing and fires
nothing. -/
theorem reconciliation_first_match_or_noop {ε : Type} (s : ServiceState ε)
    (e : DidChangeProfilesEvent) :
    (∀ pre q post, e.updated = pre ++ q :: post →
        (∀ p ∈ pre, s.currentProfile.id ≠ p.id) → s.currentProfile.id = q.id →
        onDidChangeProfilesHandler s e =
          { state := { s with currentProfile := q },
            updateListenerFires := 1, changeListenerFires := 0 })
    ∧ ((∀ p ∈ e.updated, s.currentProfile.id ≠ p.id) →
        onDidChangeProfilesHandler s e =
          { state := s, updateListenerFires := 0, changeListenerFires := 0 }) := by
  constructor
  · intro pre q post hupd hpre hq
    have hfind : e.updated.find? (fun p => s.currentProfile.id == p.id) = some q := by
      rw [hupd]
      apply find?_append_first_match
      · intro x hx
        exact beq_eq_false_iff_ne.mpr (hpre x hx)
      · exact beq_iff_eq.mpr hq
    simp [onDidChangeProfilesHandler, hfind]
  · intro hall
    have hfind : e.updated.find? (fun p => s.currentProfile.id == p.id) = none := by
      rw [List.find?_eq_none]
      intro x hx
      simpa using hall x hx
    simp [onDidChangeProfilesHandler, hfind]

/-- Claim C4 witness: a batch updating `[profBeta, profAlphaV2, profX]`
while `profAlpha` (same id as `profAlphaV2`) is current replaces the
current profile with `profAlphaV2` and fires one update and zero change
notifications; a batch updating only `profBeta` does nothing. -/
theorem reconciliation_first_match_or_noop_witness :
    renameUpdateBatch.updated = [profBeta] ++ profAlphaV2 :: [profX]
    ∧ onDidChangeProfilesHandler plainState renameUpdateBatch =
        { state := { plainState with currentProfile := profAlphaV2 },
          updateListenerFires := 1, changeListenerFires := 0 }
    ∧ onDidChangeProfilesHandler plainState unrelatedUpdateBatch =
        { state := plainState, updateListenerFires := 0, changeListenerFires := 0 } :=
  ⟨rfl,
   (reconciliation_first_match_or_noop plainState renameUpdateBatch).1
     [profBeta] profAlphaV2 [profX] rfl (by decide) (by decide),
   (reconciliation_first_match_or_noop plainState unrelatedUpdateBatch).2 (by decide)⟩

/-- Claim C10: reconciliation triggers on id equality alone: whenever some
updated entry carries the current id — including an entry whose attributes
are all identical to the current profile's — the handler fires exactly one
update notification and installs the first matching entry, with no
attribute comparison. -/
theorem reconciliation_triggers_on_id_alone {ε : Type} (s : ServiceState ε)
    (e : DidChangeProfilesEvent)
    (h : ∃ p ∈ e.updated, p.id = s.currentProfile.id) :
    (onDidChangeProfilesHandler s e).updateListenerFires = 1
    ∧ ∃ q ∈ e.updated, q.id = s.currentProfile.id ∧
        (onDidChangeProfilesHandler s e).state.currentProfile = q := by
  obtain ⟨p0, hp0mem, hp0id⟩ := h
  cases hfind : e.updated.find? (fun p => s.currentProfile.id == p.id) with
  | none =>
    rw [List.find?_eq_none] at hfind
    exact absurd (beq_iff_eq.mpr hp0id.symm) (hfind p0 hp0mem)
  | some q =>
    have hqmem := List.mem_of_find?_eq_some hfind
    have hpq := List.find?_some hfind
    have hqid : s.currentProfile.id = q.id := by simpa using hpq
    refine ⟨by simp [onDidChangeProfilesHandler, hfind], q, hqmem, hqid.symm, ?_⟩
    simp [onDidChangeProfilesHandler, hfind]

/-- Claim C10 witness: a batch whose only updated entry is byte-for-byte
identical to the current profile still fires the update notification. -/
theorem reconciliation_triggers_on_id_alone_witness :
    (∃ p ∈ identicalUpdateBatch.updated, p.id = plainState.currentProfile.id)
    ∧ ((onDidChangeProfilesHandler plainState identicalUpdateBatch).updateListenerFires = 1
      ∧ ∃ q ∈ identicalUpdateBatch.updated, q.id = plainState.currentProfile.id ∧
          (onDidChangeProfilesHandler plainState identicalUpdateBatch).state.currentProfile = q) :=
  ⟨⟨profAlpha, by simp [identicalUpdateBatch], rfl⟩,
   reconciliation_triggers_on_id_alone plainState identicalUpdateBatch
     ⟨profAlpha, by simp [identicalUpdateBatch], rfl⟩⟩

/-- Claim C8 witness: the non-interference theorem instantiated at
`sampleState` switching to `profBeta` with flags `true` and `false`. -/
theorem updateCurrentProfile_preserveData_not_interpreted_witness :
    (updateCurrentProfile sampleState profBeta true).state =
      (updateCurrentProfile sampleState profBeta false).state
    ∧ (∀ inv ∈ (updateCurrentProfile sampleState profBeta true).invocations,
        inv.event.preserveData = true) :=
  updateCurrentProfile_preserveData_not_interpreted sampleState profBeta true false
